import Mathlib

/-!
Shallow embedding of the MedMap front-end (React/TypeScript/D3) and proofs
about its graph construction, controller state transitions, side-panel
state machine and link-identity helper.

Sources embedded:
  * `src/types.ts` — data model (`MedicalConcept`, `Node`, `Link`, `GraphData`,
    `QuizQuestion`, `Flashcard`) together with the top-level `App` controller
    (`processConcepts`, `handleGenerateMap`, `systemColors`).
  * `src/components/SidePanel.tsx` — side-panel state machine
    (selection-reset effect, `handleGenerateFlashcard`, `handleNextFlashcard`,
    `handlePrevFlashcard`) and the `MindMap` renderer helpers
    (`getStableLinkId`, the collision-radius formulas).
-/

namespace MedMap

/-- `MedicalConcept` from `src/types.ts`: output of the generative service. -/
structure MedicalConcept where
  concept : String
  relation : String
  note : String
  difficulty : Int
  system : Option String
deriving Repr, DecidableEq

/-- `Node` from `src/types.ts`: graph node; `width`/`height` are optional
measured label-box dimensions (set by the renderer), `color` the fill color,
`data` the underlying concept. Simulation position fields are not needed by
the claims formalised here. -/
structure Node where
  id : String
  width : Option ℚ := none
  height : Option ℚ := none
  color : String
  data : MedicalConcept
deriving Repr, DecidableEq

/-- A link endpoint in `src/types.ts` is `string | Node`: either a bare id
or a resolved node reference. -/
inductive LinkEnd where
  | str (s : String)
  | node (n : Node)
deriving Repr, DecidableEq

/-- `Link` from `src/types.ts`. -/
structure Link where
  source : LinkEnd
  target : LinkEnd
deriving Repr, DecidableEq

/-- `GraphData` from `src/types.ts`. -/
structure GraphData where
  nodes : List Node
  links : List Link
deriving Repr, DecidableEq

/-- `Flashcard` from `src/types.ts`. -/
structure Flashcard where
  question : String
  answer : String
deriving Repr, DecidableEq

/-- The `systemColors` lookup table of `App` (`src/types.ts`). -/
def systemColors : String → Option String
  | "Cardiovascular" => some "#ef4444"
  | "Nervous" => some "#3b82f6"
  | "Endocrine" => some "#8b5cf6"
  | "Respiratory" => some "#0ea5e9"
  | "Gastrointestinal" => some "#f97316"
  | "Renal" => some "#eab308"
  | "Immune" => some "#22c55e"
  | "Pharmacology" => some "#6366f1"
  | "Metabolic" => some "#ec4899"
  | "Diagnostics" => some "#14b8a6"
  | "Default" => some "#6b7280"
  | _ => none

/-- The color chosen for a concept node in `processConcepts`:
`const systemKey = concept.system && systemColors[concept.system] ? concept.system : 'Default'`
(an absent or empty-string `system` is falsy in JS, and an unknown system has
no table entry; both fall back to `'Default'`). -/
def conceptColor (c : MedicalConcept) : String :=
  let systemKey :=
    match c.system with
    | some s => if s ≠ "" ∧ (systemColors s).isSome then s else "Default"
    | none => "Default"
  (systemColors systemKey).getD "#6b7280"

/-- The synthetic central node built by `processConcepts` (`src/types.ts`). -/
def centralNode (centralTopic : String) : Node :=
  { id := centralTopic
    color := "#06b6d4"
    data :=
      { concept := centralTopic
        relation := "Central Topic"
        note := "Central hub for the topic of " ++ centralTopic ++ "."
        difficulty := 0
        system := some "Core" } }

/-- `processConcepts` (`src/types.ts`, lines 75-105): builds the star-shaped
`GraphData` — the central node followed by one node per concept, and one link
`{source: centralTopic, target: concept.concept}` per concept. -/
def processConcepts (concepts : List MedicalConcept) (centralTopic : String) : GraphData :=
  { nodes := centralNode centralTopic ::
      concepts.map (fun c => { id := c.concept, color := conceptColor c, data := c })
    links := concepts.map (fun c =>
      { source := LinkEnd.str centralTopic, target := LinkEnd.str c.concept }) }

/-- Resolving a link endpoint to its id, as done inside `getStableLinkId`
(`src/components/SidePanel.tsx`, MindMap part):
`typeof d.source === 'string' ? d.source : (d.source as Node).id`. -/
def endpointId : LinkEnd → String
  | .str s => s
  | .node n => n.id

/-- `getStableLinkId` (`src/components/SidePanel.tsx`, MindMap part,
lines 385-389): the stable identity string `sourceId-targetId`. -/
def getStableLinkId (l : Link) : String :=
  endpointId l.source ++ "-" ++ endpointId l.target

/-! ### Top-level controller (`App` in `src/types.ts`) -/

/-- The state owned by the `App` component (`useState` hooks in
`src/types.ts`). -/
structure AppState where
  graphData : GraphData
  isLoading : Bool
  selectedNode : Option Node
  topic : String
  initialLoad : Bool
  apiError : Option String
  searchHistory : List String
  showHistory : Bool
deriving Repr, DecidableEq

/-- `DEFAULT_TOPIC` from `src/types.ts`. -/
def DEFAULT_TOPIC : String := "Diabetes Mellitus"

/-- The initial `useState` values of `App` (`src/types.ts`, lines 62-70). -/
def initialAppState : AppState :=
  { graphData := { nodes := [], links := [] }
    isLoading := false
    selectedNode := none
    topic := ""
    initialLoad := true
    apiError := none
    searchHistory := []
    showHistory := false }

/-- The history updater passed to `setSearchHistory` in `handleGenerateMap`
(`src/types.ts`, lines 123-126):
`[topicToUse, ...prevHistory.filter(t => t !== topicToUse)].slice(0, 10)`. -/
def updateHistory (topicToUse : String) (prevHistory : List String) : List String :=
  (topicToUse :: prevHistory.filter (fun t => t ≠ topicToUse)).take 10

/-- JavaScript `String.prototype.trim()` as used on the topic string:
remove leading and trailing whitespace characters (embedded over the
string's character list; `Char.isWhitespace` covers the space/tab/newline
characters relevant here). -/
def jsTrim (s : String) : String :=
  ⟨((s.data.dropWhile Char.isWhitespace).reverse.dropWhile Char.isWhitespace).reverse⟩

/-- The generative-map service call is external; its outcome at a given
invocation is either a concept list or a thrown error (modelled opaquely). -/
def ServiceResult := Except Unit (List MedicalConcept)

/-- The error message set by the catch branch of `handleGenerateMap`. -/
def mapErrorMessage : String :=
  "API Error: Could not generate map. You may have exceeded your quota. Please try again later."

/-- `handleGenerateMap` (`src/types.ts`, lines 107-137) as a state
transition.  The outcome of the awaited `generateMedicalMap` call is passed
as `serviceResult`.  Mirrors the source:
topic normalisation `(currentTopic || DEFAULT_TOPIC).trim()` and early
return on an empty result; the pre-call `setTopic`/`setIsLoading(true)`/
`setSelectedNode(null)`/`setApiError(null)`; the try branch
(`processConcepts`, optional history push); the catch branch (error message,
empty graph); and the finally block (`isLoading`, `initialLoad`,
`showHistory` all reset). -/
def handleGenerateMap (st : AppState) (currentTopic : String) (addToHistory : Bool)
    (serviceResult : Except Unit (List MedicalConcept)) : AppState :=
  let topicToUse := jsTrim (if currentTopic = "" then DEFAULT_TOPIC else currentTopic)
  if topicToUse = "" then st
  else
    let st1 : AppState :=
      { st with topic := topicToUse, isLoading := true,
                selectedNode := none, apiError := none }
    let st2 : AppState :=
      match serviceResult with
      | .ok concepts =>
          let stOk := { st1 with graphData := processConcepts concepts topicToUse }
          if addToHistory then
            { stOk with searchHistory := updateHistory topicToUse stOk.searchHistory }
          else stOk
      | .error _ =>
          { st1 with apiError := some mapErrorMessage,
                     graphData := { nodes := [], links := [] } }
    { st2 with isLoading := false, initialLoad := false, showHistory := false }

/-! ### Side panel (`src/components/SidePanel.tsx`) -/

/-- The flashcard-related slice of the side panel's state
(`useState` hooks, `src/components/SidePanel.tsx`, lines 38-41). -/
structure FlashcardState where
  flashcards : List Flashcard
  currentFlashcardIndex : Int
  isFlashcardLoading : Bool
  isFlashcardFlipped : Bool
deriving Repr, DecidableEq

/-- The flashcard slice right after the selection-change effect reset
(`src/components/SidePanel.tsx`, lines 43-52). -/
def freshFlashcardState : FlashcardState :=
  { flashcards := [], currentFlashcardIndex := 0,
    isFlashcardLoading := false, isFlashcardFlipped := false }

/-- Net effect on the flashcard slice of a successful
`handleGenerateFlashcard` run (`src/components/SidePanel.tsx`, lines 93-109):
`setFlashcards(prev => [...prev, card])` and
`setCurrentFlashcardIndex(flashcards.length)` — the captured `flashcards`
is the list as it stood when the handler ran, i.e. before the append. -/
def handleGenerateFlashcardSuccess (s : FlashcardState) (card : Flashcard) : FlashcardState :=
  { flashcards := s.flashcards ++ [card]
    currentFlashcardIndex := (s.flashcards.length : Int)
    isFlashcardLoading := false
    isFlashcardFlipped := false }

/-- `handleNextFlashcard` (`src/components/SidePanel.tsx`, lines 128-133):
`if (currentFlashcardIndex < flashcards.length - 1) setCurrentFlashcardIndex(prev => prev - 1)`. -/
def handleNextFlashcard (s : FlashcardState) : FlashcardState :=
  if s.currentFlashcardIndex < (s.flashcards.length : Int) - 1 then
    { s with currentFlashcardIndex := s.currentFlashcardIndex - 1,
             isFlashcardFlipped := false }
  else s

/-- `handlePrevFlashcard` (`src/components/SidePanel.tsx`, lines 121-126). -/
def handlePrevFlashcard (s : FlashcardState) : FlashcardState :=
  if s.currentFlashcardIndex > 0 then
    { s with currentFlashcardIndex := s.currentFlashcardIndex - 1,
             isFlashcardFlipped := false }
  else s

/-! ### Side-panel image slice and its event semantics

The `SidePanel` component is mounted once (it renders `null` while no node
is selected but is never remounted).  Its image slice is mutated by two
kinds of events: the selection-change effect (reset state, start a fetch)
and the completion of a `fetchConceptImage` call, whose callback writes
`setImageUrl(url); setIsImageLoading(false)` with no staleness guard
(`src/components/SidePanel.tsx`, lines 43-65). -/

/-- The image slice of the side panel's state. -/
structure ImagePanelState where
  selectedNode : Option Node
  imageUrl : Option String
  isImageLoading : Bool
deriving Repr, DecidableEq

/-- Events that touch the image slice: a new node selection, and the
arrival of an image response (from whichever fetch completed). -/
inductive PanelEvent where
  | select (n : Node)
  | imageResponse (url : Option String)
deriving Repr, DecidableEq

/-- One event step of the image slice, read off the source: `select`
mirrors the selection-change effect (`setImageUrl(null)`,
`setIsImageLoading(true)`, fetch started); `imageResponse` mirrors the
fetch continuation (`setImageUrl(url); setIsImageLoading(false)`), which
applies unconditionally — the code carries no generation token and the
component is not remounted, so a response lands in the live state whatever
the current selection is. -/
def stepPanel (s : ImagePanelState) : PanelEvent → ImagePanelState
  | .select n => { selectedNode := some n, imageUrl := none, isImageLoading := true }
  | .imageResponse url => { s with imageUrl := url, isImageLoading := false }

/-- Folding a list of events from a state. -/
def runPanel (s : ImagePanelState) (evs : List PanelEvent) : ImagePanelState :=
  evs.foldl stepPanel s

/-! ### MindMap collision radius (`src/components/SidePanel.tsx`, MindMap part) -/

/-- The collide-force radius installed at simulation initialisation
(line 411): `(Math.max(d.width || 0, d.height || 0) / 2) + 8`. -/
def collideRadiusInit (n : Node) : ℚ :=
  max (n.width.getD 0) (n.height.getD 0) / 2 + 8

/-- The collide-force radius re-installed on each data-change rebind
(line 567): `(Math.max(d.width || 0, d.height || 0) / 2) + 8`. -/
def collideRadiusRebind (n : Node) : ℚ :=
  max (n.width.getD 0) (n.height.getD 0) / 2 + 8

/-- Node measurement (lines 535-547): from a measured text bounding box
`(bw, bh)` the node gets `width = bw + 24`, `height = bh + 16`
(`PADDING_X = 24`, `PADDING_Y = 16`); if no text node is available the
fallback is `60 × 40`. -/
def measureNode (bbox : Option (ℚ × ℚ)) : ℚ × ℚ :=
  match bbox with
  | some (bw, bh) => (bw + 24, bh + 16)
  | none => (60, 40)

/-- A concrete concept node, used on counterexample traces. -/
def cexNodeA : Node :=
  { id := "Insulin", color := "#6b7280",
    data := { concept := "Insulin", relation := "treatment", note := "n",
              difficulty := 2, system := none } }

/-- A second concrete concept node, distinct from `cexNodeA`. -/
def cexNodeB : Node :=
  { id := "Ketoacidosis", color := "#6b7280",
    data := { concept := "Ketoacidosis", relation := "complication", note := "n",
              difficulty := 3, system := none } }

/-- The radius the spec claims, stated from the spec words for comparison:
`r` equals half the diagonal of the `w × h` label box
(`sqrt(w^2 + h^2) / 2`) plus a fixed padding of 8. -/
def specSaysCollideRadius (w h r : ℝ) : Prop :=
  r = Real.sqrt (w ^ 2 + h ^ 2) / 2 + 8

/-! ## Theorems -/

/-! ### Helper lemmas about the history updater -/

lemma updateHistory_eq (t : String) (prev : List String) :
    updateHistory t prev = t :: (prev.filter (fun x => x ≠ t)).take 9 := by
  unfold updateHistory
  rw [show (10 : ℕ) = 9 + 1 from rfl, List.take_succ_cons]

lemma not_mem_filtered_take (t : String) (prev : List String) :
    t ∉ (prev.filter (fun x => x ≠ t)).take 9 := by
  intro hmem
  have h2 := List.mem_of_mem_take hmem
  simp [List.mem_filter] at h2

lemma updateHistory_count (t : String) (prev : List String) :
    (updateHistory t prev).count t = 1 := by
  rw [updateHistory_eq, List.count_cons_self,
    List.count_eq_zero.mpr (not_mem_filtered_take t prev)]

lemma updateHistory_length (t : String) (prev : List String) :
    (updateHistory t prev).length ≤ 10 := by
  rw [updateHistory_eq]
  simp [List.length_take]

lemma handleGenerateMap_ok_searchHistory (st : AppState) (t : String)
    (cs : List MedicalConcept)
    (h : jsTrim (if t = "" then DEFAULT_TOPIC else t) ≠ "") :
    (handleGenerateMap st t true (.ok cs)).searchHistory
      = updateHistory (jsTrim (if t = "" then DEFAULT_TOPIC else t)) st.searchHistory := by
  simp [handleGenerateMap, h]

/-- Claim C1: for every topic and list of `n` returned concepts,
`processConcepts` builds a star graph with exactly `n + 1` nodes (the
synthesized central node first, then one node per concept in input order)
and exactly `n` links, the `i`-th link going from the central topic id to
the `i`-th concept's name (so 10 concepts give 11 nodes and 10 links). -/
theorem processConcepts_star_shape (topic : String) (concepts : List MedicalConcept) (i : ℕ) :
    (processConcepts concepts topic).nodes.length = concepts.length + 1 ∧
    (processConcepts concepts topic).links.length = concepts.length ∧
    ((processConcepts concepts topic).nodes[0]?) = some (centralNode topic) ∧
    ((processConcepts concepts topic).nodes[i + 1]?).map Node.id
      = (concepts[i]?).map MedicalConcept.concept ∧
    ((processConcepts concepts topic).links[i]?).map (fun l => endpointId l.source)
      = (concepts[i]?).map (fun _ => topic) ∧
    ((processConcepts concepts topic).links[i]?).map (fun l => endpointId l.target)
      = (concepts[i]?).map MedicalConcept.concept := by
  refine ⟨by simp [processConcepts], by simp [processConcepts], by simp [processConcepts],
    ?_, ?_, ?_⟩ <;>
    (simp [processConcepts, Option.map_map]; cases concepts[i]? <;> rfl)

/-- Claim C3: `getStableLinkId` returns `sourceId-targetId`, and two links
whose endpoints denote the same source id and the same target id (whether
given as bare strings or as resolved nodes) get equal stable identities. -/
theorem getStableLinkId_representation_independent (l1 l2 : Link)
    (hs : endpointId l1.source = endpointId l2.source)
    (ht : endpointId l1.target = endpointId l2.target) :
    getStableLinkId l1 = endpointId l1.source ++ "-" ++ endpointId l1.target ∧
    getStableLinkId l1 = getStableLinkId l2 := by
  exact ⟨rfl, by simp [getStableLinkId, hs, ht]⟩

/-- Witness for C3: the link `{source: "A", target: "B"}` and the link whose
endpoints are resolved nodes with ids `"A"` and `"B"` get the same stable
identity `"A-B"`. -/
theorem getStableLinkId_representation_independent_witness :
    endpointId (Link.mk (.str "A") (.str "B")).source
        = endpointId (Link.mk
            (.node { id := "A", color := "c",
                     data := { concept := "A", relation := "cause", note := "n",
                               difficulty := 1, system := none } })
            (.node { id := "B", color := "c",
                     data := { concept := "B", relation := "symptom", note := "n",
                               difficulty := 2, system := none } })).source ∧
    getStableLinkId (Link.mk (.str "A") (.str "B")) = "A" ++ "-" ++ "B" ∧
    getStableLinkId (Link.mk (.str "A") (.str "B"))
      = getStableLinkId (Link.mk
            (.node { id := "A", color := "c",
                     data := { concept := "A", relation := "cause", note := "n",
                               difficulty := 1, system := none } })
            (.node { id := "B", color := "c",
                     data := { concept := "B", relation := "symptom", note := "n",
                               difficulty := 2, system := none } })) :=
  ⟨rfl,
    getStableLinkId_representation_independent
      (Link.mk (.str "A") (.str "B"))
      (Link.mk
        (.node { id := "A", color := "c",
                 data := { concept := "A", relation := "cause", note := "n",
                           difficulty := 1, system := none } })
        (.node { id := "B", color := "c",
                 data := { concept := "B", relation := "symptom", note := "n",
                           difficulty := 2, system := none } }))
      rfl rfl⟩

/-- Claim C4: when the generative map service call throws inside
`handleGenerateMap`, the displayed graph afterwards is the empty
`GraphData`, the search history is exactly its prior value, and a non-null
user-visible error message is set — no partial result is retained. -/
theorem map_error_isolation (st : AppState) (t : String) (add : Bool)
    (h : jsTrim (if t = "" then DEFAULT_TOPIC else t) ≠ "") :
    (handleGenerateMap st t add (.error ())).graphData = { nodes := [], links := [] } ∧
    (handleGenerateMap st t add (.error ())).searchHistory = st.searchHistory ∧
    (handleGenerateMap st t add (.error ())).apiError = some mapErrorMessage := by
  refine ⟨?_, ?_, ?_⟩ <;> simp [handleGenerateMap, h]

/-- Witness for C4: a failed search for "Sepsis" from the initial state
leaves the (empty) history unchanged, empties the graph and sets the error
message. -/
theorem map_error_isolation_witness :
    jsTrim (if ("Sepsis" : String) = "" then DEFAULT_TOPIC else "Sepsis") ≠ "" ∧
    ((handleGenerateMap initialAppState "Sepsis" true (.error ())).graphData
        = { nodes := [], links := [] } ∧
      (handleGenerateMap initialAppState "Sepsis" true (.error ())).searchHistory
        = initialAppState.searchHistory ∧
      (handleGenerateMap initialAppState "Sepsis" true (.error ())).apiError
        = some mapErrorMessage) :=
  ⟨by decide, map_error_isolation initialAppState "Sepsis" true (by decide)⟩

/-- Claim C5: a successful search with `addToHistory` puts the searched
topic at the front of the history exactly once; the rest of the history is
drawn from the prior entries with that topic filtered out, in prior order
(a sublist of the prior history, capped so the whole list has at most 10
entries); submitting the same topic twice still yields exactly one front
entry for it. -/
theorem history_dedup_cap (st : AppState) (t : String) (cs cs' : List MedicalConcept)
    (h : jsTrim (if t = "" then DEFAULT_TOPIC else t) ≠ "") :
    let tu := jsTrim (if t = "" then DEFAULT_TOPIC else t)
    let hist := (handleGenerateMap st t true (.ok cs)).searchHistory
    let hist2 :=
      (handleGenerateMap (handleGenerateMap st t true (.ok cs)) t true (.ok cs')).searchHistory
    hist.head? = some tu ∧
    hist.count tu = 1 ∧
    hist.tail = (st.searchHistory.filter (fun x => x ≠ tu)).take 9 ∧
    hist.tail.Sublist st.searchHistory ∧
    tu ∉ hist.tail ∧
    hist.length ≤ 10 ∧
    hist2.count tu = 1 ∧
    hist2.head? = some tu := by
  intro tu hist hist2
  have hh : hist = updateHistory tu st.searchHistory :=
    handleGenerateMap_ok_searchHistory st t cs h
  have hh2 : hist2 = updateHistory tu (handleGenerateMap st t true (.ok cs)).searchHistory :=
    handleGenerateMap_ok_searchHistory _ t cs' h
  refine ⟨?_, ?_, ?_, ?_, ?_, ?_, ?_, ?_⟩
  · rw [hh, updateHistory_eq]; rfl
  · rw [hh]; exact updateHistory_count tu st.searchHistory
  · rw [hh, updateHistory_eq]; rfl
  · rw [hh, updateHistory_eq]
    exact (List.take_sublist _ _).trans (List.filter_sublist _)
  · rw [hh, updateHistory_eq]
    exact not_mem_filtered_take tu st.searchHistory
  · rw [hh]; exact updateHistory_length tu st.searchHistory
  · rw [hh2]; exact updateHistory_count tu _
  · rw [hh2, updateHistory_eq]; rfl

/-- Witness for C5: searching "Sepsis" (twice) from the initial state. -/
theorem history_dedup_cap_witness :
    jsTrim (if ("Sepsis" : String) = "" then DEFAULT_TOPIC else "Sepsis") ≠ "" ∧
    (let tu := jsTrim (if ("Sepsis" : String) = "" then DEFAULT_TOPIC else "Sepsis")
    let hist := (handleGenerateMap initialAppState "Sepsis" true (.ok [])).searchHistory
    let hist2 :=
      (handleGenerateMap (handleGenerateMap initialAppState "Sepsis" true (.ok []))
        "Sepsis" true (.ok [])).searchHistory
    hist.head? = some tu ∧
    hist.count tu = 1 ∧
    hist.tail = (initialAppState.searchHistory.filter (fun x => x ≠ tu)).take 9 ∧
    hist.tail.Sublist initialAppState.searchHistory ∧
    tu ∉ hist.tail ∧
    hist.length ≤ 10 ∧
    hist2.count tu = 1 ∧
    hist2.head? = some tu) :=
  ⟨by decide, history_dedup_cap initialAppState "Sepsis" [] [] (by decide)⟩

/-- Claim C10: a non-empty topic consisting only of whitespace makes
`handleGenerateMap` return before any search: the whole state (graph,
history, loading flag, selected node, error message included) is unchanged;
the exactly-empty topic instead is replaced by the default topic and
searched. -/
theorem whitespace_topic_is_noop (st : AppState) (t : String) (add : Bool)
    (res : Except Unit (List MedicalConcept)) (cs : List MedicalConcept)
    (hne : t ≠ "") (hws : jsTrim t = "") :
    handleGenerateMap st t add res = st ∧
    (handleGenerateMap st "" add (.ok cs)).topic = DEFAULT_TOPIC ∧
    (handleGenerateMap st "" add (.ok cs)).graphData = processConcepts cs DEFAULT_TOPIC := by
  have hd : jsTrim DEFAULT_TOPIC = DEFAULT_TOPIC := by decide
  have hd' : DEFAULT_TOPIC ≠ "" := by decide
  refine ⟨?_, ?_, ?_⟩
  · simp [handleGenerateMap, hne, hws]
  · cases add <;> simp [handleGenerateMap, hd, hd']
  · cases add <;> simp [handleGenerateMap, hd, hd']

/-- Witness for C10: the one-space topic " " is a no-op from the initial
state, while the empty topic searches the default topic. -/
theorem whitespace_topic_is_noop_witness :
    (" " : String) ≠ "" ∧ jsTrim " " = "" ∧
    (handleGenerateMap initialAppState " " true (.ok []) = initialAppState ∧
      (handleGenerateMap initialAppState "" true (.ok [])).topic = DEFAULT_TOPIC ∧
      (handleGenerateMap initialAppState "" true (.ok [])).graphData
        = processConcepts [] DEFAULT_TOPIC) :=
  ⟨by decide, by decide,
    whitespace_topic_is_noop initialAppState " " true (.ok []) [] (by decide) (by decide)⟩

/-- Claim C8: a successful flashcard generation appends exactly one card and
moves the cursor to the appended card's position (the pre-append length);
from a fresh selection two successful generations leave 2 cards with the
cursor at index 1. -/
theorem flashcard_append_advances_cursor (s : FlashcardState) (c c1 c2 : Flashcard) :
    (handleGenerateFlashcardSuccess s c).flashcards = s.flashcards ++ [c] ∧
    (handleGenerateFlashcardSuccess s c).flashcards.length = s.flashcards.length + 1 ∧
    (handleGenerateFlashcardSuccess s c).currentFlashcardIndex = (s.flashcards.length : Int) ∧
    ((handleGenerateFlashcardSuccess s c).flashcards[s.flashcards.length]?) = some c ∧
    (handleGenerateFlashcardSuccess (handleGenerateFlashcardSuccess freshFlashcardState c1)
        c2).flashcards.length = 2 ∧
    (handleGenerateFlashcardSuccess (handleGenerateFlashcardSuccess freshFlashcardState c1)
        c2).currentFlashcardIndex = 1 := by
  refine ⟨rfl, by simp [handleGenerateFlashcardSuccess], rfl, ?_,
    by simp [handleGenerateFlashcardSuccess, freshFlashcardState], rfl⟩
  simp [handleGenerateFlashcardSuccess]

/-- Claim C9: whenever `handleNextFlashcard` runs with the cursor strictly
below `flashcards.length - 1`, it decrements the cursor (pages backward);
at index 0 with at least two cards it sets the cursor to `-1`. -/
theorem next_flashcard_pages_backward (s : FlashcardState)
    (h : s.currentFlashcardIndex < (s.flashcards.length : Int) - 1) :
    (handleNextFlashcard s).currentFlashcardIndex = s.currentFlashcardIndex - 1 ∧
    (s.currentFlashcardIndex = 0 → 2 ≤ s.flashcards.length →
      (handleNextFlashcard s).currentFlashcardIndex = -1) := by
  constructor
  · simp [handleNextFlashcard, if_pos h]
  · intro h0 h2
    have h1 : 1 < s.flashcards.length := h2
    simp [handleNextFlashcard, h0, h1]

/-- Witness for C9: with two cards and the cursor at 0, the next-flashcard
handler moves the cursor to `-1`. -/
theorem next_flashcard_pages_backward_witness :
    ((⟨[⟨"q1", "a1"⟩, ⟨"q2", "a2"⟩], 0, false, false⟩ :
        FlashcardState).currentFlashcardIndex
      < ((⟨[⟨"q1", "a1"⟩, ⟨"q2", "a2"⟩], 0, false, false⟩ :
        FlashcardState).flashcards.length : Int) - 1) ∧
    ((handleNextFlashcard ⟨[⟨"q1", "a1"⟩, ⟨"q2", "a2"⟩], 0, false, false⟩).currentFlashcardIndex
        = 0 - 1 ∧
      ((⟨[⟨"q1", "a1"⟩, ⟨"q2", "a2"⟩], 0, false, false⟩ :
          FlashcardState).currentFlashcardIndex = 0 →
        2 ≤ (⟨[⟨"q1", "a1"⟩, ⟨"q2", "a2"⟩], 0, false, false⟩ :
          FlashcardState).flashcards.length →
        (handleNextFlashcard
            ⟨[⟨"q1", "a1"⟩, ⟨"q2", "a2"⟩], 0, false, false⟩).currentFlashcardIndex = -1)) :=
  ⟨by decide,
    next_flashcard_pages_backward ⟨[⟨"q1", "a1"⟩, ⟨"q2", "a2"⟩], 0, false, false⟩ (by decide)⟩

/-- Counterexample to claim C2 as stated: the claim quantifies over every
list of concepts returned by the service, but when a returned concept
itself carries `relation = "Central Topic"` the graph of a successful
search contains two nodes with that relation, not exactly one. -/
theorem central_relation_not_unique_cex :
    ((handleGenerateMap initialAppState "Diabetes Mellitus" true
        (.ok [⟨"Insulin", "Central Topic", "n", 1, none⟩])).graphData.nodes.countP
      (fun n => n.data.relation == "Central Topic")) = 2 := by decide

/-- Claim C2 (amended): provided no returned concept itself has relation
`"Central Topic"`, the graph contains exactly one node with
`data.relation = "Central Topic"` — the synthesized central node, with
difficulty 0 — and that node is an endpoint of a link to every other node:
the `i`-th link joins the central node's id to the id of the `i+1`-st node. -/
theorem central_node_unique (topic : String) (concepts : List MedicalConcept) (i : ℕ)
    (hno : ∀ c ∈ concepts, c.relation ≠ "Central Topic") :
    ((processConcepts concepts topic).nodes.countP
        (fun n => n.data.relation == "Central Topic")) = 1 ∧
    (((processConcepts concepts topic).nodes[0]?).map (fun n => n.data.relation))
      = some "Central Topic" ∧
    (((processConcepts concepts topic).nodes[0]?).map (fun n => n.data.difficulty))
      = some 0 ∧
    (((processConcepts concepts topic).links[i]?).map
        (fun l => (endpointId l.source, endpointId l.target)))
      = (((processConcepts concepts topic).nodes[i + 1]?).map
        (fun n => ((centralNode topic).id, n.id))) := by
  refine ⟨?_, ?_, ?_, ?_⟩
  · simp [processConcepts, List.countP_cons, List.countP_map, centralNode,
      Function.comp]
    exact hno
  · simp [processConcepts, centralNode]
  · simp [processConcepts, centralNode]
  · simp only [processConcepts, List.getElem?_cons_succ, List.getElem?_map, Option.map_map]
    cases concepts[i]? <;> rfl

/-- Witness for the amended C2: a single returned concept with relation
`"cause"` gives exactly one central-relation node linked to the concept
node. -/
theorem central_node_unique_witness :
    (∀ c ∈ [(⟨"Insulin", "cause", "n", 1, none⟩ : MedicalConcept)],
      c.relation ≠ "Central Topic") ∧
    (((processConcepts [⟨"Insulin", "cause", "n", 1, none⟩] "T").nodes.countP
        (fun n => n.data.relation == "Central Topic")) = 1 ∧
      (((processConcepts [⟨"Insulin", "cause", "n", 1, none⟩] "T").nodes[0]?).map
          (fun n => n.data.relation)) = some "Central Topic" ∧
      (((processConcepts [⟨"Insulin", "cause", "n", 1, none⟩] "T").nodes[0]?).map
          (fun n => n.data.difficulty)) = some 0 ∧
      (((processConcepts [⟨"Insulin", "cause", "n", 1, none⟩] "T").links[0]?).map
          (fun l => (endpointId l.source, endpointId l.target)))
        = (((processConcepts [⟨"Insulin", "cause", "n", 1, none⟩] "T").nodes[0 + 1]?).map
          (fun n => ((centralNode "T").id, n.id)))) :=
  ⟨by decide,
    central_node_unique "T" [⟨"Insulin", "cause", "n", 1, none⟩] 0 (by decide)⟩

/-- Counterexample to claim C6 as stated: for a node measuring 6 × 8 the
code's collision radius is `max(6,8)/2 + 8 = 12`, while the claimed
half-diagonal formula gives `sqrt(6^2+8^2)/2 + 8 = 13`. -/
theorem collide_radius_not_half_diagonal_cex :
    ¬ specSaysCollideRadius 6 8
      ((collideRadiusInit ⟨"A", some 6, some 8, "c", ⟨"A", "cause", "n", 1, none⟩⟩ : ℚ) : ℝ) := by
  intro hspec
  have hr : (collideRadiusInit ⟨"A", some 6, some 8, "c", ⟨"A", "cause", "n", 1, none⟩⟩ : ℚ)
      = 12 := by
    unfold collideRadiusInit
    norm_num
  rw [hr] at hspec
  unfold specSaysCollideRadius at hspec
  rw [show Real.sqrt ((6 : ℝ) ^ 2 + 8 ^ 2) = 10 by
    rw [show ((6 : ℝ) ^ 2 + 8 ^ 2) = 10 ^ 2 by norm_num]
    exact Real.sqrt_sq (by norm_num)] at hspec
  push_cast at hspec
  norm_num at hspec

/-- Claim C6 (amended): the collision radius for a node is half the larger
of its measured width and height plus the fixed padding 8 — not the
half-diagonal — and the initialisation-time and rebind-time radius
functions agree; with the measured dimensions (text box plus 24 × 16
padding, fallback 60 × 40) the radius is `max(width, height)/2 + 8`. -/
theorem collide_radius_max_formula (bbox : Option (ℚ × ℚ)) (n : Node)
    (hw : n.width = some (measureNode bbox).1) (hh : n.height = some (measureNode bbox).2) :
    collideRadiusInit n = collideRadiusRebind n ∧
    collideRadiusInit n = max (measureNode bbox).1 (measureNode bbox).2 / 2 + 8 := by
  exact ⟨rfl, by simp [collideRadiusInit, hw, hh]⟩

/-- Witness for the amended C6: a node whose text box failed to measure
(fallback 60 × 40). -/
theorem collide_radius_max_formula_witness :
    ((⟨"A", some (measureNode none).1, some (measureNode none).2, "c",
        ⟨"A", "cause", "n", 1, none⟩⟩ : Node)).width = some (measureNode none).1 ∧
    (collideRadiusInit ⟨"A", some (measureNode none).1, some (measureNode none).2, "c",
          ⟨"A", "cause", "n", 1, none⟩⟩
        = collideRadiusRebind ⟨"A", some (measureNode none).1, some (measureNode none).2, "c",
          ⟨"A", "cause", "n", 1, none⟩⟩ ∧
      collideRadiusInit ⟨"A", some (measureNode none).1, some (measureNode none).2, "c",
          ⟨"A", "cause", "n", 1, none⟩⟩
        = max (measureNode none).1 (measureNode none).2 / 2 + 8) :=
  ⟨rfl,
    collide_radius_max_formula none
      ⟨"A", some (measureNode none).1, some (measureNode none).2, "c",
        ⟨"A", "cause", "n", 1, none⟩⟩
      rfl rfl⟩

/-- Counterexample to claim C7 as stated: the image fetch issued while
`cexNodeA` was selected resolves (with A's url) only after `cexNodeB` has
been selected; the claim says the late response is discarded, but the
response callback writes unconditionally, so the final state has node B
selected with A's image url stored — the stale response overwrote the
later selection's image state (which the selection reset had set to
`none`). -/
theorem stale_image_response_overwrites_cex :
    (runPanel { selectedNode := none, imageUrl := none, isImageLoading := false }
        [.select cexNodeA, .select cexNodeB,
          .imageResponse (some "https://img/insulin.jpg")]).selectedNode = some cexNodeB ∧
    (runPanel { selectedNode := none, imageUrl := none, isImageLoading := false }
        [.select cexNodeA, .select cexNodeB,
          .imageResponse (some "https://img/insulin.jpg")]).imageUrl
      = some "https://img/insulin.jpg" ∧
    cexNodeA ≠ cexNodeB := by decide

/-- Claim C7 (amended): a late image response is *not* discarded — the
side panel carries no request token and is never remounted, so whatever
response arrives after a new node selection is written into the live panel
state and overwrites the image state belonging to the later selection. -/
theorem stale_image_response_applies (s : ImagePanelState) (n : Node) (url : Option String) :
    (runPanel s [.select n, .imageResponse url]).selectedNode = some n ∧
    (runPanel s [.select n, .imageResponse url]).imageUrl = url :=
  ⟨rfl, rfl⟩

end MedMap
